import Mathlib

/-!
Verification development for the blocker-detection / session-routing core of
the `clawdbot` repository.

Text is modelled as `List Char` (one entry per Unicode code point).  The
JavaScript regular expressions of the source are embedded as values of a
small regex type `RE` together with a backtracking matcher that follows the
JS semantics used by the source patterns: leftmost match, left alternative
preferred, greedy quantifiers, `.` not matching line terminators, `/i`
realised by ASCII case folding (every pattern in the source is ASCII).
The matcher is fuel-indexed so that it is structurally recursive and hence
evaluable by the kernel; the fuel chosen at the entry points is far larger
than the depth any of the embedded patterns can need.
-/

namespace Clawdbot

abbrev Str := List Char

/-- Code points of a `String` literal. -/
def s2l (s : String) : Str := s.data

/-- JS whitespace (the set matched by `\s` and removed by `String.trim`). -/
def isJsWsChar (c : Char) : Bool :=
  let n := c.toNat
  n = 0x20 || n = 0x9 || n = 0xa || n = 0xd || n = 0xc || n = 0xb ||
  n = 0xa0 || n = 0x1680 || (0x2000 ≤ n && n ≤ 0x200a) ||
  n = 0x2028 || n = 0x2029 || n = 0x202f || n = 0x205f || n = 0x3000 || n = 0xfeff

/-- `String.prototype.trim`: strip JS whitespace from both ends. -/
def jsTrim (s : Str) : Str :=
  (s.dropWhile isJsWsChar).reverse.dropWhile isJsWsChar |>.reverse

/-- ASCII lower-casing on code points (enough for the ASCII `/i` patterns). -/
def lowerNat (n : Nat) : Nat := if 65 ≤ n ∧ n ≤ 90 then n + 32 else n

/-- Case-insensitive character comparison (ASCII folding). -/
def ciCharEq (a b : Char) : Bool := lowerNat a.toNat == lowerNat b.toNat

/-- Does `p` occur as a prefix of `s` (character-wise equality)? -/
def startsWithStr : Str → Str → Bool
  | [], _ => true
  | _ :: _, [] => false
  | p :: ps, c :: cs => p == c && startsWithStr ps cs

/-- Does `p` occur as a substring of `s`? -/
def containsStr (p : Str) (s : Str) : Bool :=
  match s with
  | [] => startsWithStr p []
  | _ :: rest => startsWithStr p s || containsStr p rest

/-- Case-insensitive substring occurrence (ASCII folding on both sides). -/
def containsCI (p : Str) (s : Str) : Bool :=
  containsStr (p.map (fun c => Char.ofNat (lowerNat c.toNat)))
    (s.map (fun c => Char.ofNat (lowerNat c.toNat)))

/-- Split at the first occurrence of `p`, returning the text before and
after it (the occurrence itself removed). -/
def splitFirst (p : Str) : Str → Option (Str × Str)
  | [] => if startsWithStr p [] then some ([], []) else none
  | c :: rest =>
    if startsWithStr p (c :: rest) then some ([], (c :: rest).drop p.length)
    else match splitFirst p rest with
      | some (pre, post) => some (c :: pre, post)
      | none => none

/-- `text.split("\n")` (JS): split on every newline, keeping empty pieces. -/
def splitLines : Str → List Str
  | [] => [[]]
  | c :: rest =>
    if c = '\n' then [] :: splitLines rest
    else match splitLines rest with
      | l :: ls => (c :: l) :: ls
      | [] => [[c]]

/-- `lines.join("\n")` (JS `Array.prototype.join`). -/
def joinNl : List Str → Str
  | [] => []
  | [l] => l
  | l :: ls => l ++ '\n' :: joinNl ls

/-- `text.split(/[.!?\n]+/)` (JS): maximal runs of separator characters act
as one separator; empty fields survive at the ends. -/
def splitRuns (sep : Char → Bool) : Str → List Str
  | [] => [[]]
  | c :: rest =>
    if sep c then
      match rest with
      | [] => [[], []]
      | d :: _ => if sep d then splitRuns sep rest else [] :: splitRuns sep rest
    else match splitRuns sep rest with
      | l :: ls => (c :: l) :: ls
      | [] => [[c]]

/-! ## A tiny backtracking regex engine

`RE` covers exactly the constructs used by the source's patterns.  `mrun`
is a continuation-passing backtracking matcher: `alt` tries its left branch
first (JS semantics), `opt`/`star` are greedy, `grp` records the text the
single capture group of a pattern consumed.  The `Nat` fuel only bounds the
recursion depth so that the definition is structurally recursive; the entry
points pass fuel that no embedded pattern can exhaust. -/

inductive RE : Type where
  | lit : Str → RE
  | cls : (Char → Bool) → RE
  | seq : RE → RE → RE
  | alt : RE → RE → RE
  | opt : RE → RE
  | star : RE → RE
  | grp : RE → RE

/-- Structural size of a regex, used to pick a sufficient fuel. -/
def reSize : RE → Nat
  | .lit s => s.length + 1
  | .cls _ => 1
  | .seq a b => reSize a + reSize b + 1
  | .alt a b => reSize a + reSize b + 1
  | .opt a => reSize a + 1
  | .star a => reSize a + 1
  | .grp a => reSize a + 1

/-- Backtracking matcher.  `k` is the continuation receiving the remaining
input and the current capture; the first success in JS backtracking order
wins. -/
def mrun {α : Type} : Nat → RE → Str → Option Str →
    (Str → Option Str → Option α) → Option α
  | 0, _, _, _, _ => none
  | _ + 1, .lit p, s, cap, k =>
    if startsWithStr p s then k (s.drop p.length) cap else none
  | _ + 1, .cls f, s, cap, k =>
    match s with
    | [] => none
    | c :: rest => if f c then k rest cap else none
  | fuel + 1, .seq a b, s, cap, k =>
    mrun fuel a s cap (fun s1 c1 => mrun fuel b s1 c1 k)
  | fuel + 1, .alt a b, s, cap, k =>
    (mrun fuel a s cap k).orElse (fun _ => mrun fuel b s cap k)
  | fuel + 1, .opt a, s, cap, k =>
    (mrun fuel a s cap k).orElse (fun _ => k s cap)
  | fuel + 1, .star a, s, cap, k =>
    (mrun fuel a s cap (fun s1 c1 => mrun fuel (.star a) s1 c1 k)).orElse
      (fun _ => k s cap)
  | fuel + 1, .grp a, s, cap, k =>
    mrun fuel a s cap (fun s1 _ => k s1 (some (s.take (s.length - s1.length))))

/-- Try to match `r` at the start of `s` (the rest of `s` is unconstrained).
Returns `some cap` on success, where `cap` is the group-1 capture. -/
def matchTop (r : RE) (s : Str) : Option (Option Str) :=
  mrun ((s.length + 2) * (reSize r + 2)) r s none (fun _ cap => some cap)

/-- Leftmost match: try `matchTop` at each start position, left to right. -/
def searchFrom (r : RE) (s : Str) : Option (Option Str) :=
  match matchTop r s with
  | some cap => some cap
  | none =>
    match s with
    | [] => none
    | _ :: rest => searchFrom r rest

/-- `re.test(s)` (unanchored). -/
def reTest (r : RE) (s : Str) : Bool := (searchFrom r s).isSome

/-- `s.match(re)` restricted to group 1: the capture of the leftmost match. -/
def group1 (r : RE) (s : Str) : Option Str :=
  match searchFrom r s with
  | some (some g) => some g
  | _ => none

/-- Case-sensitive literal regex. -/
def reLit (s : String) : RE := .lit s.data

/-- Case-insensitive literal regex (`/i`, ASCII folding). -/
def reCI (s : String) : RE :=
  s.data.foldr (fun c r => .seq (.cls (fun d => ciCharEq d c)) r) (.lit [])

/-- Sequencing of a list of regexes. -/
def reSeq (l : List RE) : RE := l.foldr .seq (.lit [])

/-- Alternation of a list of regexes, preferring earlier entries. -/
def reAlt : List RE → RE
  | [] => .cls (fun _ => false)
  | [r] => r
  | r :: rest => .alt r (reAlt rest)

/-- `r{n}`: exactly `n` copies. -/
def repRE (n : Nat) (r : RE) : RE :=
  match n with
  | 0 => .lit []
  | k + 1 => .seq r (repRE k r)

/-- Up to `n` copies, greedy (more copies preferred). -/
def atMostRE (n : Nat) (r : RE) : RE :=
  match n with
  | 0 => .lit []
  | k + 1 => .alt (.seq r (atMostRE k r)) (.lit [])

/-- `.` in JS (`dotAll` off): any character except a line terminator. -/
def dotRE : RE :=
  .cls (fun c => !(c == '\n' || c == '\r' || c.toNat == 0x2028 || c.toNat == 0x2029))

/-- `\s`. -/
def wsRE : RE := .cls isJsWsChar

/-- `\s*`. -/
def wsStar : RE := .star wsRE

/-- `\s+`. -/
def wsPlus : RE := .seq wsRE (.star wsRE)

def isDigitChar (c : Char) : Bool := '0' ≤ c && c ≤ '9'

/-- `\d+`. -/
def digitsPlus : RE := .seq (.cls isDigitChar) (.star (.cls isDigitChar))

/-- `\d+(?:\.\d+)?`. -/
def numRE : RE := .seq digitsPlus (.opt (.seq (reLit ".") digitsPlus))

/-! ## The blocker pattern table (`BLOCKER_PATTERNS` of the blocker detector)

Each pattern carries the regex source text (used by the source to build the
`matchedPatterns` entries as `category:source`) and its `RE` embedding.
In the source file the bracket classes `['']` contain the ASCII apostrophe
twice, so they match exactly `'`. -/

structure PatternSpec where
  source : Str
  re : RE

structure ExtractorSpec where
  field : Str
  re : RE

structure CategorySpec where
  category : Str
  patterns : List PatternSpec
  extractors : List ExtractorSpec

/-- Base58 alphabet `[1-9A-HJ-NP-Za-km-z]` (Solana address characters). -/
def isBase58Char (c : Char) : Bool :=
  ('1' ≤ c && c ≤ '9') || ('A' ≤ c && c ≤ 'H') || ('J' ≤ c && c ≤ 'N') ||
  ('P' ≤ c && c ≤ 'Z') || ('a' ≤ c && c ≤ 'k') || ('m' ≤ c && c ≤ 'z')

/-- `/([1-9A-HJ-NP-Za-km-z]{32,44})/` (case-sensitive). -/
def walletRE : RE := .grp (.seq (repRE 32 (.cls isBase58Char)) (atMostRE 12 (.cls isBase58Char)))

/-- `/need(?:s|ed)?\s+(\d+(?:\.\d+)?)\s*sol/i`. -/
def neededRE : RE :=
  reSeq [reCI "need", .opt (reAlt [reCI "s", reCI "ed"]), wsPlus, .grp numRE, wsStar, reCI "sol"]

/-- `[:\s]`. -/
def colonWsRE : RE := .cls (fun c => c == ':' || isJsWsChar c)

/-- `/(?:current|balance)[:\s]+(\d+(?:\.\d+)?)\s*sol/i`. -/
def currentRE : RE :=
  reSeq [reAlt [reCI "current", reCI "balance"], colonWsRE, .star colonWsRE,
    .grp numRE, wsStar, reCI "sol"]

def BLOCKER_PATTERNS : List CategorySpec := [
  { category := s2l "waiting_for_user",
    patterns := [
      ⟨s2l "let me know when", reCI "let me know when"⟩,
      ⟨s2l "once you['']ve", reCI "once you've"⟩,
      ⟨s2l "after you['']ve", reCI "after you've"⟩,
      ⟨s2l "when you['']re ready", reCI "when you're ready"⟩,
      ⟨s2l "waiting for you", reCI "waiting for you"⟩,
      ⟨s2l "please (complete|finish|do|run|execute|claim|fund)",
        reSeq [reCI "please ", reAlt [reCI "complete", reCI "finish", reCI "do",
          reCI "run", reCI "execute", reCI "claim", reCI "fund"]]⟩,
      ⟨s2l "you['']ll need to", reCI "you'll need to"⟩,
      ⟨s2l "you need to", reCI "you need to"⟩,
      ⟨s2l "please let me know", reCI "please let me know"⟩],
    extractors := [] },
  { category := s2l "funding_needed",
    patterns := [
      ⟨s2l "need(s|ed)? (more )?(sol|funds|funding|balance)",
        reSeq [reCI "need", .opt (reAlt [reCI "s", reCI "ed"]), reCI " ",
          .opt (reCI "more "),
          reAlt [reCI "sol", reCI "funds", reCI "funding", reCI "balance"]]⟩,
      ⟨s2l "insufficient (sol|balance|funds)",
        reSeq [reCI "insufficient ", reAlt [reCI "sol", reCI "balance", reCI "funds"]]⟩,
      ⟨s2l "airdrop (failed|rate.?limit)",
        reSeq [reCI "airdrop ",
          reAlt [reCI "failed", reSeq [reCI "rate", .opt dotRE, reCI "limit"]]]⟩,
      ⟨s2l "faucet", reCI "faucet"⟩,
      ⟨s2l "claim (sol|tokens)",
        reSeq [reCI "claim ", reAlt [reCI "sol", reCI "tokens"]]⟩],
    extractors := [
      ⟨s2l "wallet", walletRE⟩,
      ⟨s2l "needed", neededRE⟩,
      ⟨s2l "current", currentRE⟩] },
  { category := s2l "external_action",
    patterns := [
      ⟨s2l "manual(ly)?", .seq (reCI "manual") (.opt (reCI "ly"))⟩,
      ⟨s2l "browser", reCI "browser"⟩,
      ⟨s2l "captcha", reCI "captcha"⟩,
      ⟨s2l "verification", reCI "verification"⟩,
      ⟨s2l "authenticate", reCI "authenticate"⟩,
      ⟨s2l "2fa|two.?factor",
        .alt (reCI "2fa") (reSeq [reCI "two", .opt dotRE, reCI "factor"])⟩],
    extractors := [] },
  { category := s2l "rate_limited",
    patterns := [
      ⟨s2l "rate.?limit", reSeq [reCI "rate", .opt dotRE, reCI "limit"]⟩,
      ⟨s2l "too many requests", reCI "too many requests"⟩,
      ⟨s2l "try again (later|in)",
        reSeq [reCI "try again ", reAlt [reCI "later", reCI "in"]]⟩,
      ⟨s2l "cooldown", reCI "cooldown"⟩,
      ⟨s2l "quota", reCI "quota"⟩],
    extractors := [] },
  { category := s2l "permission_needed",
    patterns := [
      ⟨s2l "permission denied", reCI "permission denied"⟩,
      ⟨s2l "access denied", reCI "access denied"⟩,
      ⟨s2l "unauthorized", reCI "unauthorized"⟩,
      ⟨s2l "need(s)? (permission|access|credentials)",
        reSeq [reCI "need", .opt (reCI "s"), reCI " ",
          reAlt [reCI "permission", reCI "access", reCI "credentials"]]⟩],
    extractors := [] }]

/-! ## The blocker detector (`detectBlocker` and friends) -/

structure BlockerInfo where
  reason : Str
  lastMessage : Str
  matchedPatterns : List Str
  extractedContext : Option (List (Str × Str))
deriving DecidableEq

/-- Insertion-order-preserving JS object assignment `obj[k] = v`. -/
def upsert (k v : Str) : List (Str × Str) → List (Str × Str)
  | [] => [(k, v)]
  | (k', v') :: rest => if k' = k then (k', v) :: rest else (k', v') :: upsert k v rest

/-- Result of the pattern-matching loop of `detectBlocker`. -/
structure DetectOutcome where
  matched : List Str
  primary : Option Str
  ctx : List (Str × Str)

/-- Run a category's extractors over `text` (`if (match && match[1])`:
the extracted value must be a non-empty capture). -/
def applyExtractors (text : Str) (es : List ExtractorSpec)
    (ctx : List (Str × Str)) : List (Str × Str) :=
  es.foldl (fun m e =>
    match group1 e.re text with
    | some v => if v ≠ [] then upsert e.field v m else m
    | none => m) ctx

/-- One iteration of the outer loop of `detectBlocker`: try every pattern of
one category, recording `category:source`, the first category as primary,
and running the extractors on each hit. -/
def applyCategory (text : Str) (c : CategorySpec) (o : DetectOutcome) : DetectOutcome :=
  c.patterns.foldl (fun o p =>
    if reTest p.re text then
      { matched := o.matched ++ [c.category ++ ':' :: p.source],
        primary := match o.primary with
          | some x => some x
          | none => some c.category,
        ctx := applyExtractors text c.extractors o.ctx }
    else o) o

/-- The full pattern-matching loop over `BLOCKER_PATTERNS`. -/
def detectCore (text : Str) : DetectOutcome :=
  BLOCKER_PATTERNS.foldl (fun o c => applyCategory text c o) ⟨[], none, []⟩

/-- Fuel-indexed worker for `removeFences`; each recursive step removes one
complete (non-empty) fenced block, so `s.length` steps are always enough. -/
def removeFencesAux : Nat → Str → Str
  | 0, s => s
  | fuel + 1, s =>
    match splitFirst (s2l "```") s with
    | none => s
    | some (pre, rest) =>
      match splitFirst (s2l "```") rest with
      | none => s
      | some (_, rest2) => pre ++ removeFencesAux fuel rest2

/-- Remove fenced code blocks: `text.replace(/```[\s\S]*?```/g, "")`.
The global non-greedy replace repeatedly deletes from the leftmost
`` ``` `` to the nearest following `` ``` ``; an unpaired final fence is
left in place. -/
def removeFences (s : Str) : Str := removeFencesAux (s.length + 1) s

/-- Remove Markdown-table-like lines (lines whose trimmed form starts with
`|`, or containing `|---`). -/
def filterTables (s : Str) : Str :=
  joinNl ((splitLines s).filter (fun line =>
    !startsWithStr (s2l "|") (jsTrim line) && !containsStr (s2l "|---") line))

/-- The Signal Filter pre-filter applied by `detectBlocker` before matching. -/
def filterText (s : Str) : Str := filterTables (removeFences s)

/-- Blocker keywords looked for in a sentence (on its lower-cased form). -/
def reasonKeywordHit (s : Str) : Bool :=
  let l := s.map (fun c => Char.ofNat (lowerNat c.toNat))
  containsStr (s2l "need") l || containsStr (s2l "wait") l ||
  containsStr (s2l "please") l || containsStr (s2l "blocked") l ||
  containsStr (s2l "failed") l

/-- Sentence segmentation of `extractBlockerReason`:
`text.split(/[.!?\n]+/).filter((s) => s.trim().length > 10)`. -/
def sentencesOf (text : Str) : List Str :=
  (splitRuns (fun c => c == '.' || c == '!' || c == '?' || c == '\n') text).filter
    (fun s => 10 < (jsTrim s).length)

/-- The per-sentence clamp of `extractBlockerReason`: a sentence of more
than 150 characters is cut to 147 and given an ellipsis. -/
def clampReason (t : Str) : Str :=
  if t.length ≤ 150 then t else t.take 147 ++ s2l "..."

/-- The per-category canned fallback reasons (the `switch` at the end of
`extractBlockerReason`). -/
def cannedReason (category : Option Str) : Str :=
  if category = some (s2l "funding_needed") then s2l "Insufficient funds - need additional SOL"
  else if category = some (s2l "waiting_for_user") then s2l "Waiting for user action"
  else if category = some (s2l "external_action") then s2l "Requires manual/browser action"
  else if category = some (s2l "rate_limited") then s2l "Rate limited - need to wait"
  else if category = some (s2l "permission_needed") then s2l "Permission or access needed"
  else s2l "Blocked - needs external intervention"

/-- `extractBlockerReason(text, category)`. -/
def extractBlockerReason (text : Str) (category : Option Str) : Str :=
  match (sentencesOf text).find? reasonKeywordHit with
  | some s => clampReason (jsTrim s)
  | none => cannedReason category

/-- `detectBlocker(text, sessionEnded)`.  `!text` is subsumed by the length
test (an empty string has length `0 < 20`). -/
def detectBlocker (text : Str) (sessionEnded : Bool) : Option BlockerInfo :=
  if text.length < 20 then none
  else
    let cleanText := filterText text
    let o := detectCore cleanText
    if o.matched = [] then none
    else if sessionEnded = true ∨ 2 ≤ o.matched.length ∨ o.primary = some (s2l "funding_needed") then
      some { reason := extractBlockerReason cleanText o.primary,
             lastMessage := cleanText,
             matchedPatterns := o.matched,
             extractedContext := if o.ctx = [] then none else some o.ctx }
    else none

/-! ## End-of-session scanning (`checkEventsForBlocker`) -/

structure SessionEvent where
  type : Str
  text : Option Str
deriving DecidableEq

/-- JS truthiness of an optional string (`undefined` and `""` are falsy). -/
def textTruthy : Option Str → Bool
  | some s => !s.isEmpty
  | none => false

/-- The event's text, defaulting to the empty string. -/
def textOf (e : SessionEvent) : Str := e.text.getD []

/-- The filter of `checkEventsForBlocker`:
`e.type === "assistant_message" && e.text`. -/
def assistantWithText (e : SessionEvent) : Bool :=
  decide (e.type = s2l "assistant_message") && textTruthy e.text

/-- `arr.slice(-n)` for a non-negative JS `n` (`slice(-0)` is `slice(0)`,
the whole array). -/
def sliceNeg (n : Nat) (l : List α) : List α :=
  if n = 0 then l else l.drop (l.length - n)

/-- `COMPLETION_SIGNALS`: `.` does not cross line terminators. -/
def COMPLETION_SIGNALS : List RE := [
  reSeq [reLit "✅", .star dotRE, reCI "ready"],
  reSeq [reLit "✓", .star dotRE, reCI "ready"],
  reSeq [reCI "all", .star dotRE, reCI "complete"],
  reCI "finished",
  reCI "done!",
  reCI "successfully"]

/-- `hasCompletionSignal(text)`. -/
def hasCompletionSignal (text : Str) : Bool :=
  COMPLETION_SIGNALS.any (fun r => reTest r text)

/-- `^[-*+]\s`. -/
def bulletRE : RE := .seq (.cls (fun c => c == '-' || c == '*' || c == '+')) wsRE

/-- `^\d+\.\s`. -/
def numberedRE : RE := reSeq [.cls isDigitChar, .star (.cls isDigitChar), reLit ".", wsRE]

/-- `^(Tasks?|Criteria|Signals?|Examples?|Quantitative|Qualitative).*:` (`/i`). -/
def headingRE : RE :=
  reSeq [reAlt [reSeq [reCI "task", .opt (reCI "s")], reCI "criteria",
      reSeq [reCI "signal", .opt (reCI "s")], reSeq [reCI "example", .opt (reCI "s")],
      reCI "quantitative", reCI "qualitative"],
    .star dotRE, reLit ":"]

/-- `isLikelyListItem(text)`: some line, trimmed, looks like a Markdown
bullet, a numbered item, or a recognized heading followed by a colon. -/
def isLikelyListItem (text : Str) : Bool :=
  (splitLines text).any (fun line =>
    let t := jsTrim line
    (matchTop bulletRE t).isSome || (matchTop numberedRE t).isSome ||
    (matchTop headingRE t).isSome)

/-- The completion veto of `checkEventsForBlocker`: the very last recent
assistant message has (truthy) text containing a completion signal. -/
def completionVeto (msgs : List SessionEvent) : Bool :=
  match msgs.getLast? with
  | some last => textTruthy last.text && hasCompletionSignal (textOf last)
  | none => false

/-- The most-recent-first scan of `checkEventsForBlocker`: skip events
without text and list-like ones, return the first detector hit. -/
def scanForBlocker : List SessionEvent → Option BlockerInfo
  | [] => none
  | e :: rest =>
    if !textTruthy e.text then scanForBlocker rest
    else if isLikelyListItem (textOf e) then scanForBlocker rest
    else match detectBlocker (textOf e) true with
      | some b => some b
      | none => scanForBlocker rest

/-- `checkEventsForBlocker(events, lastNEvents)` (the source default for
`lastNEvents` is `2`). -/
def checkEventsForBlocker (events : List SessionEvent) (lastNEvents : Nat) : Option BlockerInfo :=
  let recentAssistantMessages := sliceNeg lastNEvents (events.filter assistantWithText)
  if completionVeto recentAssistantMessages then none
  else scanForBlocker recentAssistantMessages.reverse

/-! ## Level 2: the blocker assessor

The judgment oracle is an external collaborator reached through
`invokeDyDoAssessment(contextSummary)`; its invocation either produces a
`BlockerAssessment` or throws.  That outcome is modelled by an
`Except Str BlockerAssessment` argument (`.error e` is a thrown exception),
which the assessor's `try`/`catch` absorbs.  Confidence values are exact
rationals (the source only ever uses decimal literals). -/

structure BlockerAssessment where
  isRealBlocker : Bool
  confidence : ℚ
  reasoning : Str
  canAutoHandle : Option Bool
  autoResponse : Option Str
deriving DecidableEq

/-- `assessBlocker(blocker, sessionEvents, sessionStatus)`: returns the
oracle's assessment, or the conservative fail-open fallback when the oracle
invocation threw. -/
def assessBlocker (_blocker : BlockerInfo) (_sessionEvents : List SessionEvent)
    (_sessionStatus : Str) (oracle : Except Str BlockerAssessment) : BlockerAssessment :=
  match oracle with
  | .ok assessment => assessment
  | .error _ =>
    { isRealBlocker := true,
      confidence := 1 / 2,
      reasoning := s2l "Assessment failed, defaulting to pattern matching result",
      canAutoHandle := none,
      autoResponse := none }

/-! ## Level 3: the realtime interventor -/

structure InterventionResult where
  intervened : Bool
  response : Option Str
  reasoning : Str
deriving DecidableEq

structure InterventionDecision where
  canHandle : Bool
  response : Option Str
  reasoning : Str
deriving DecidableEq

structure SessionContext where
  sessionId : Str
  projectName : Str
  recentEvents : List SessionEvent

/-- `askDyDoForIntervention`: the oracle's decision, or the fail-closed
fallback when the oracle invocation threw. -/
def askDyDoForIntervention (_blocker : BlockerInfo) (_questionText : Str)
    (_sessionContext : SessionContext) (oracle : Except Str InterventionDecision) :
    InterventionDecision :=
  match oracle with
  | .ok decision => decision
  | .error _ =>
    { canHandle := false,
      response := none,
      reasoning := s2l "Intervention assessment failed, escalating to user" }

/-- `checkForRealtimeIntervention(event, sessionContext)`: ignore
non-assistant events, run the detector in strict mode
(`sessionEnded=false`), and consult the oracle only on a hit.
`intervention.response` must be truthy (a non-empty string) for the
intervention to fire. -/
def checkForRealtimeIntervention (event : SessionEvent) (sessionContext : SessionContext)
    (oracle : Except Str InterventionDecision) : InterventionResult :=
  if ¬(event.type = s2l "assistant_message") ∨ ¬(textTruthy event.text = true) then
    { intervened := false, response := none, reasoning := s2l "Not an assistant message" }
  else
    match detectBlocker (textOf event) false with
    | none =>
      { intervened := false, response := none, reasoning := s2l "No blocker pattern detected" }
    | some suspectedBlocker =>
      let intervention :=
        askDyDoForIntervention suspectedBlocker (textOf event) sessionContext oracle
      if intervention.canHandle && textTruthy intervention.response then
        { intervened := true, response := intervention.response,
          reasoning := intervention.reasoning }
      else
        { intervened := false, response := none, reasoning := intervention.reasoning }

/-! ## Fallback parsing of a bubble message (`parseResumeTokenFromMessage`)

In the source file the header regex uses the literal character `路`
(U+8DEF) as separator, both around the project name and in the negated
class. -/

def isTokenChar (c : Char) : Bool := ('a' ≤ c && c ≤ 'f') || isDigitChar c || c == '-'

/-- `/claude --resume ([a-f0-9-]{36})/` (case-sensitive). -/
def resumeTokenRE : RE := .seq (reLit "claude --resume ") (.grp (repRE 36 (.cls isTokenChar)))

/-- `[^\n]`. -/
def nonNlRE : RE := .cls (fun c => !(c == '\n'))

/-- `/ctx:\s*([^\n]+)/`. -/
def ctxRE : RE := reSeq [reLit "ctx:", wsStar, .grp (.seq nonNlRE (.star nonNlRE))]

/-- `[^路]`. -/
def nonSepRE : RE := .cls (fun c => !(c == '路'))

/-- `/\*\*(?:working|done)\*\*\s*路\s*([^路]+)\s*路/`. -/
def headerRE : RE :=
  reSeq [reLit "**", .alt (reLit "working") (reLit "done"), reLit "**", wsStar,
    reLit "路", wsStar, .grp (.seq nonSepRE (.star nonSepRE)), wsStar, reLit "路"]

/-- `parseResumeTokenFromMessage(messageText)`: `!messageText` covers both
`undefined` and the empty string. -/
def parseResumeTokenFromMessage (messageText : Option Str) : Option (Str × Str) :=
  match messageText with
  | none => none
  | some msg =>
    if msg.isEmpty then none
    else
      match group1 resumeTokenRE msg with
      | none => none
      | some resumeToken =>
        let projectName :=
          match group1 ctxRE msg with
          | some g => jsTrim g
          | none =>
            match group1 headerRE msg with
            | some g => jsTrim g
            | none => s2l "unknown"
        some (resumeToken, projectName)

/-! ## Planning requests (`buildPlanningRequest`) -/

inductive PlanningAction where
  | start
  | resume
deriving DecidableEq

structure ChatContext where
  chatId : Str
  threadId : Option Nat
  accountId : Option Str
  forcedResumeToken : Option Str

structure PlanningRequestParams where
  action : PlanningAction
  project : Str
  task : Option Str
  resumeToken : Option Str
  worktree : Option Str
  quick : Bool
  chatContext : Option ChatContext

/-- JS truthiness of an optional string. -/
def truthyStr (o : Option Str) : Bool :=
  match o with
  | some s => !s.isEmpty
  | none => false

/-- `a || d` for an optional string `a` and default `d`. -/
def orDefault (o : Option Str) (d : Str) : Str :=
  if truthyStr o then o.getD [] else d

/-- Template interpolation `${o}` of an optional value. -/
def tsInterp (o : Option Str) : Str :=
  match o with
  | some s => s
  | none => s2l "undefined"

/-- JS truthiness of an optional number (`0` is falsy). -/
def threadTruthy : Option Nat → Bool
  | some n => n != 0
  | none => false

/-- Decimal rendering of a natural number (fuel-indexed so that the kernel
can evaluate it). -/
def natToStrAux : Nat → Nat → Str
  | 0, _ => []
  | fuel + 1, n =>
    if n < 10 then [Char.ofNat (48 + n)]
    else natToStrAux fuel (n / 10) ++ [Char.ofNat (48 + n % 10)]

def natToStr (n : Nat) : Str := natToStrAux (n + 1) n

/-- `task.replace(/"/g, '\\"')`. -/
def escQuotes (s : Str) : Str :=
  s.foldr (fun c acc => if c = '"' then '\\' :: '"' :: acc else c :: acc) []

/-- `worktree ? `${project} @${worktree}` : project`. -/
def projectSpecOf (project : Str) (worktree : Option Str) : Str :=
  if truthyStr worktree then project ++ s2l " @" ++ worktree.getD [] else project

/-- `buildQuickStartRequest(params)`. -/
def buildQuickStartRequest (p : PlanningRequestParams) : Str :=
  joinNl [
    s2l "[Claude Code Quick Start]",
    [],
    s2l "Project: " ++ projectSpecOf p.project p.worktree,
    s2l "Task: " ++ orDefault p.task (s2l "Continue working"),
    [],
    s2l "Start a Claude Code session immediately with this task.",
    s2l "Use the claude_code_start tool with the task as the prompt."]

/-- `buildResumeRequest(params)`. -/
def buildResumeRequest (p : PlanningRequestParams) : Str :=
  joinNl ([
    s2l "[Claude Code Resume Request]",
    [],
    s2l "**CRITICAL RULES:**",
    s2l "1. You MUST call `claude_code_start` tool immediately",
    s2l "2. You MUST use EXACTLY this resumeToken: \"" ++ tsInterp p.resumeToken ++ s2l "\"",
    [],
    s2l "Project: " ++ orDefault (some p.project) (s2l "(from token)"),
    s2l "User said: \"" ++ orDefault p.task (s2l "continue") ++ s2l "\"",
    [],
    s2l "## Required Tool Call",
    s2l "Call `claude_code_start` with these EXACT values:",
    s2l "- project: \"" ++ p.project ++ s2l "\"",
    s2l "- resumeToken: \"" ++ tsInterp p.resumeToken ++ s2l "\" ← MUST USE THIS EXACT TOKEN",
    s2l "- prompt: <add project context to user's request>"]
    ++ (match p.chatContext with
      | some cc =>
        [s2l "- chatId: \"" ++ cc.chatId ++ s2l "\""]
        ++ (if threadTruthy cc.threadId then
              [s2l "- threadId: " ++ natToStr (cc.threadId.getD 0)]
            else [])
      | none => [])
    ++ [[],
      s2l "**WARNING:** If you omit resumeToken or use a different value, it will start a NEW session instead of resuming. The user wants to CONTINUE their existing session."])

/-- `buildFullPlanningRequest(params)`. -/
def buildFullPlanningRequest (p : PlanningRequestParams) : Str :=
  if ¬(truthyStr p.task = true) then
    joinNl [
      s2l "[Claude Code Request]",
      s2l "Project: " ++ projectSpecOf p.project p.worktree,
      [],
      s2l "User wants to start a Claude Code session but didn't specify a task.",
      s2l "Ask them what they want to work on."]
  else
    joinNl ([
      s2l "[Claude Code Start Request]",
      [],
      s2l "**CRITICAL: You MUST call the `claude_code_start` tool. Do NOT respond with text messages.**",
      [],
      s2l "Project: " ++ projectSpecOf p.project p.worktree,
      s2l "User said: \"" ++ p.task.getD [] ++ s2l "\"",
      [],
      s2l "## Your Task",
      s2l "1. BRIEFLY check project context (use `project_context` tool)",
      s2l "2. Call `claude_code_start` with enriched instructions",
      [],
      s2l "## Tool Call (REQUIRED)",
      s2l "```",
      s2l "claude_code_start(\x7b",
      s2l "  project: \"" ++ p.project ++ s2l "\","]
    ++ (if truthyStr p.worktree then
          [s2l "  worktree: \"" ++ p.worktree.getD [] ++ s2l "\","]
        else [])
    ++ [s2l "  prompt: \"<ENRICHED INSTRUCTIONS - add project context>\",",
      s2l "  originalTask: \"" ++ escQuotes (p.task.getD []) ++ s2l "\","]
    ++ (match p.chatContext with
      | some cc =>
        [s2l "  chatId: \"" ++ cc.chatId ++ s2l "\","]
        ++ (if threadTruthy cc.threadId then
              [s2l "  threadId: " ++ natToStr (cc.threadId.getD 0) ++ s2l ","]
            else [])
        ++ (if truthyStr cc.accountId then
              [s2l "  accountId: \"" ++ cc.accountId.getD [] ++ s2l "\","]
            else [])
      | none => [])
    ++ [s2l "\x7d)",
      s2l "```",
      [],
      s2l "**Rules:**",
      s2l "- DO NOT respond with text messages - call the tool",
      s2l "- Add context from project (phase, blockers, etc.) to the prompt",
      s2l "- Only ask clarifying question if TRULY ambiguous (rarely needed)"])

/-- `buildPlanningRequest(params)`. -/
def buildPlanningRequest (p : PlanningRequestParams) : Str :=
  if p.quick then buildQuickStartRequest p
  else if p.action = .resume then buildResumeRequest p
  else buildFullPlanningRequest p

/-! ## The bubble-reply router (`handleBubbleReply`)

The pure model takes the outcomes of the stateful collaborator calls as
arguments: `bubbleInfo` is the result of the in-memory
`isReplyToBubble(chatId, replyToMessageId)` lookup, `sessionLive` whether
`getSession(sessionId)` found a live session, `sendOk` the return value of
`sendInput`, and `resolveOk` whether `resolveProject` succeeded on the
fallback path.  Besides the tagged result the model records the side
effects relevant to the routing claims: which token was forced via
`setForcedResumeToken`, and what was written to the live session's input
channel. -/

structure Bubble where
  resumeToken : Str
  projectName : Str
deriving DecidableEq

inductive HandleBubbleReplyResult where
  | not_bubble_reply
  | handled_directly
  | route_to_dydo (orchestrationText : Str)
deriving DecidableEq

structure RouterCalls where
  result : HandleBubbleReplyResult
  forcedToken : Option Str
  sentInput : Option (Str × Str)
deriving DecidableEq

def handleBubbleReply (chatId : Str) (text : Str) (threadId : Option Nat)
    (originalMessageText : Option Str) (bubbleInfo : Option (Str × Bubble))
    (sessionLive : Bool) (sendOk : Bool) (resolveOk : Bool) : RouterCalls :=
  match bubbleInfo with
  | none =>
    match parseResumeTokenFromMessage originalMessageText with
    | none => ⟨.not_bubble_reply, none, none⟩
    | some (resumeToken, projectName) =>
      if ¬(resolveOk = true) then ⟨.handled_directly, none, none⟩
      else
        ⟨.route_to_dydo (buildPlanningRequest
            ⟨.resume, projectName, some text, some resumeToken, none, false,
              some ⟨chatId, threadId, none, none⟩⟩),
          some resumeToken, none⟩
  | some (sessionId, bubble) =>
    if sessionLive ∧ sendOk then
      ⟨.handled_directly, none, some (sessionId, text)⟩
    else
      ⟨.route_to_dydo (buildPlanningRequest
          ⟨.resume, bubble.projectName, some text, some bubble.resumeToken, none, false,
            some ⟨chatId, threadId, none, none⟩⟩),
        some bubble.resumeToken,
        if sessionLive then some (sessionId, text) else none⟩

/-! ## Supporting lemmas -/

theorem mem_of_getLastQ {α : Type} {l : List α} {a : α} (h : l.getLast? = some a) :
    a ∈ l := by
  obtain ⟨hne, rfl⟩ := List.mem_getLast?_eq_getLast (show a ∈ l.getLast? by simp [Option.mem_def, h])
  exact List.getLast_mem hne

theorem getLastQ_drop {α : Type} :
    ∀ (l : List α) (k : Nat), k < l.length → (l.drop k).getLast? = l.getLast?
  | [], _, h => by simp at h
  | _ :: _, 0, _ => rfl
  | c :: t, k + 1, h => by
    have hk : k < t.length := by simpa using h
    have ht : t ≠ [] := by
      intro he
      rw [he] at hk
      simp at hk
    rw [List.drop_succ_cons, getLastQ_drop t k hk]
    cases t with
    | nil => exact absurd rfl ht
    | cons x xs => exact (List.getLast?_cons_cons ..).symm

theorem sliceNeg_getLastQ {α : Type} (n : Nat) (l : List α) (h : l ≠ []) :
    (sliceNeg n l).getLast? = l.getLast? := by
  unfold sliceNeg
  split
  · rfl
  · next hn =>
    apply getLastQ_drop
    have : 0 < l.length := List.length_pos.2 h
    omega

theorem mem_sliceNeg {α : Type} {a : α} {n : Nat} {l : List α} (h : a ∈ sliceNeg n l) :
    a ∈ l := by
  unfold sliceNeg at h
  split at h
  · exact h
  · exact List.mem_of_mem_drop h

theorem scanForBlocker_spec (l : List SessionEvent) (b : BlockerInfo) :
    scanForBlocker l = some b →
    ∃ e, e ∈ l ∧ textTruthy e.text = true ∧ isLikelyListItem (textOf e) = false ∧
      detectBlocker (textOf e) true = some b := by
  induction l with
  | nil => intro h; simp [scanForBlocker] at h
  | cons e rest ih =>
    intro h
    rw [scanForBlocker] at h
    split at h
    · next hcond =>
      obtain ⟨e', he', h1, h2, h3⟩ := ih h
      exact ⟨e', List.mem_cons_of_mem _ he', h1, h2, h3⟩
    · next hcond =>
      split at h
      · obtain ⟨e', he', h1, h2, h3⟩ := ih h
        exact ⟨e', List.mem_cons_of_mem _ he', h1, h2, h3⟩
      · next hlist =>
        split at h
        · next b' hdet =>
          refine ⟨e, List.mem_cons_self .., ?_, ?_, ?_⟩
          · simpa using hcond
          · simpa using hlist
          · rw [hdet]; exact congrArg some (Option.some.inj h)
        · obtain ⟨e', he', h1, h2, h3⟩ := ih h
          exact ⟨e', List.mem_cons_of_mem _ he', h1, h2, h3⟩

theorem splitLines_ne_nil (s : Str) : splitLines s ≠ [] := by
  cases s with
  | nil => simp [splitLines]
  | cons c rest =>
    rw [splitLines]
    split
    · simp
    · split <;> simp

theorem no_nl_of_mem_splitLines : ∀ (s : Str) (l : Str), l ∈ splitLines s → '\n' ∉ l := by
  intro s
  induction s with
  | nil =>
    intro l hl
    simp [splitLines] at hl
    subst hl
    simp
  | cons c rest ih =>
    intro l hl
    rw [splitLines] at hl
    by_cases hc : c = '\n'
    · rw [if_pos hc] at hl
      rcases List.mem_cons.1 hl with h | h
      · subst h; simp
      · exact ih l h
    · rw [if_neg hc] at hl
      cases hsp : splitLines rest with
      | nil => exact absurd hsp (splitLines_ne_nil rest)
      | cons x xs =>
        rw [hsp] at hl
        rcases List.mem_cons.1 hl with h | h
        · subst h
          intro hmem
          rcases List.mem_cons.1 hmem with h' | h'
          · exact hc h'.symm
          · exact ih x (by rw [hsp]; exact List.mem_cons_self ..) h'
        · exact ih l (by rw [hsp]; exact List.mem_cons_of_mem _ h)

theorem splitLines_eq_self {a : Str} (ha : '\n' ∉ a) : splitLines a = [a] := by
  induction a with
  | nil => rfl
  | cons c rest ih =>
    have hc : ¬(c = '\n') := by
      intro h
      exact ha (h ▸ List.mem_cons_self ..)
    rw [splitLines, if_neg hc, ih (fun h => ha (List.mem_cons_of_mem _ h))]

theorem splitLines_append_nl {a t : Str} (ha : '\n' ∉ a) :
    splitLines (a ++ '\n' :: t) = a :: splitLines t := by
  induction a with
  | nil => simp [splitLines]
  | cons c rest ih =>
    have hc : ¬(c = '\n') := by
      intro h
      exact ha (h ▸ List.mem_cons_self ..)
    have ih' := ih (fun h => ha (List.mem_cons_of_mem _ h))
    rw [List.cons_append, splitLines, if_neg hc, ih']

theorem joinNl_cons_ne (a : Str) (ls : List Str) (h : ls ≠ []) :
    joinNl (a :: ls) = a ++ '\n' :: joinNl ls := by
  cases ls with
  | nil => exact absurd rfl h
  | cons x xs => rfl

theorem splitLines_joinNl : ∀ (ls : List Str), (∀ l ∈ ls, '\n' ∉ l) → ls ≠ [] →
    splitLines (joinNl ls) = ls
  | [], _, hne => absurd rfl hne
  | [a], h, _ => by
    have : joinNl [a] = a := rfl
    rw [this]
    exact splitLines_eq_self (h a (List.mem_cons_self ..))
  | a :: b :: rest, h, _ => by
    rw [joinNl_cons_ne a (b :: rest) (by simp),
      splitLines_append_nl (h a (List.mem_cons_self ..)),
      splitLines_joinNl (b :: rest) (fun l hl => h l (List.mem_cons_of_mem _ hl)) (by simp)]

theorem joinNl_decomp : ∀ (l1 : List Str) (mid : Str) (l2 : List Str),
    ∃ p q, joinNl (l1 ++ mid :: l2) = p ++ mid ++ q
  | [], mid, [] => ⟨[], [], by simp [joinNl]⟩
  | [], mid, x :: xs =>
    ⟨[], '\n' :: joinNl (x :: xs), by
      rw [List.nil_append, joinNl_cons_ne mid (x :: xs) (by simp)]
      simp⟩
  | a :: rest, mid, l2 => by
    obtain ⟨p, q, hpq⟩ := joinNl_decomp rest mid l2
    refine ⟨a ++ '\n' :: p, q, ?_⟩
    rw [List.cons_append, joinNl_cons_ne a _ (by simp), hpq]
    simp

theorem joinNl_token_decomp (x1 x2 x3 x4 A tok B : Str) (rest m t : List Str) :
    ∃ p q, joinNl (((x1 :: x2 :: x3 :: x4 :: (A ++ tok ++ B) :: rest) ++ m) ++ t) =
      p ++ tok ++ q := by
  obtain ⟨P, Q, hPQ⟩ := joinNl_decomp [x1, x2, x3, x4] (A ++ tok ++ B) ((rest ++ m) ++ t)
  refine ⟨P ++ A, B ++ Q, ?_⟩
  have hls : ((x1 :: x2 :: x3 :: x4 :: (A ++ tok ++ B) :: rest) ++ m) ++ t
      = [x1, x2, x3, x4] ++ (A ++ tok ++ B) :: ((rest ++ m) ++ t) := by simp
  rw [hls, hPQ]
  simp

theorem buildResumeRequest_decomp (p : PlanningRequestParams) (tok : Str)
    (h : p.resumeToken = some tok) :
    ∃ pre post, buildResumeRequest p = pre ++ tok ++ post := by
  unfold buildResumeRequest
  rw [h]
  simp only [tsInterp]
  exact joinNl_token_decomp _ _ _ _ _ tok _ _ _ _

theorem clampReason_length_le (t : Str) : (clampReason t).length ≤ 150 := by
  unfold clampReason
  split
  · omega
  · next hgt =>
    simp only [List.length_append, List.length_take]
    have : (s2l "...").length = 3 := by decide
    omega

/-! ## Claim theorems -/

/-- Claim C1: with `sessionEnded=false`, `detectBlocker` reports a blocker
only when at least two pattern occurrences matched or the primary category
is `funding_needed`; occurrences are counted, not categories (two
sub-patterns of `waiting_for_user` alone suffice); a single
`funding_needed` match is reported; and with `sessionEnded=true` any
single match suffices. -/
theorem C1_strength_policy :
    (∀ (text : Str) (b : BlockerInfo), detectBlocker text false = some b →
      2 ≤ b.matchedPatterns.length ∨
        (detectCore (filterText text)).primary = some (s2l "funding_needed")) ∧
    ((detectBlocker (s2l "Insufficient funds detected here.") false).map
        (fun b => b.matchedPatterns) =
      some [s2l "funding_needed:insufficient (sol|balance|funds)"]) ∧
    ((detectBlocker (s2l "Let me know when you're ready to continue.") false).map
        (fun b => b.matchedPatterns) =
      some [s2l "waiting_for_user:let me know when",
        s2l "waiting_for_user:when you['']re ready"]) ∧
    (∀ text : Str, 20 ≤ text.length → (detectCore (filterText text)).matched ≠ [] →
      (detectBlocker text true).isSome = true) := by
  refine ⟨?_, by decide, by decide, ?_⟩
  · intro text b h
    simp only [detectBlocker] at h
    split at h
    · exact absurd h (by simp)
    · split at h
      · exact absurd h (by simp)
      · split at h
        · next hcond =>
          rcases hcond with h1 | h2 | h3
          · exact absurd h1 (by simp)
          · left
            have hb := Option.some.inj h
            rw [← hb]
            exact h2
          · right
            exact h3
        · exact absurd h (by simp)
  · intro text h20 hm
    simp [detectBlocker, show ¬(text.length < 20) by omega, hm]

/-- Witness for C1: the single-pattern funding text is reported with
`sessionEnded=false`, and a session-ended single match is reported. -/
theorem C1_strength_policy_witness :
    (2 ≤ ([s2l "funding_needed:insufficient (sol|balance|funds)"] : List Str).length ∨
      (detectCore (filterText (s2l "Insufficient funds detected here."))).primary =
        some (s2l "funding_needed")) ∧
    (detectBlocker (s2l "Insufficient funds detected here.") true).isSome = true :=
  ⟨C1_strength_policy.1 (s2l "Insufficient funds detected here.")
      ⟨s2l "Insufficient funds - need additional SOL", s2l "Insufficient funds detected here.",
        [s2l "funding_needed:insufficient (sol|balance|funds)"], none⟩ (by decide),
    C1_strength_policy.2.2.2 (s2l "Insufficient funds detected here.") (by decide) (by decide)⟩

/-- Claim C2: whenever the most recent assistant message with text contains
a completion signal, `checkEventsForBlocker` returns none, whatever the
other messages contain. -/
theorem C2_completion_veto (events : List SessionEvent) (n : Nat) (e : SessionEvent)
    (hlast : (events.filter assistantWithText).getLast? = some e)
    (hsig : hasCompletionSignal (textOf e) = true) :
    checkEventsForBlocker events n = none := by
  have hne : events.filter assistantWithText ≠ [] := by
    intro h0
    rw [h0] at hlast
    simp at hlast
  have hrecent : (sliceNeg n (events.filter assistantWithText)).getLast? = some e := by
    rw [sliceNeg_getLastQ n _ hne]
    exact hlast
  have hawt : assistantWithText e = true := List.of_mem_filter (mem_of_getLastQ hlast)
  have htt : textTruthy e.text = true := by
    simp only [assistantWithText, Bool.and_eq_true] at hawt
    exact hawt.2
  have hveto : completionVeto (sliceNeg n (events.filter assistantWithText)) = true := by
    unfold completionVeto
    rw [hrecent]
    simp [htt, hsig]
  simp only [checkEventsForBlocker]
  rw [if_pos hveto]

/-- Witness for C2: an earlier funding message is vetoed by a final
completion message. -/
theorem C2_completion_veto_witness :
    checkEventsForBlocker
      [⟨s2l "assistant_message", some (s2l "Insufficient funds detected here.")⟩,
        ⟨s2l "assistant_message", some (s2l "Done! Everything finished successfully.")⟩] 2 =
      none :=
  C2_completion_veto _ 2
    ⟨s2l "assistant_message", some (s2l "Done! Everything finished successfully.")⟩
    (by decide) (by decide)

/-- Claim C3 (counterexample): on
`[{assistant_message, "Need 2 SOL to proceed, current balance 0.1 SOL"}]`
`checkEventsForBlocker` returns none, not a `funding_needed` BlockerInfo
with extracted context, because no `BLOCKER_PATTERNS` regex matches that
text. -/
theorem C3_funding_scenario_counterexample :
    checkEventsForBlocker
      [⟨s2l "assistant_message", some (s2l "Need 2 SOL to proceed, current balance 0.1 SOL")⟩]
      2 = none := by decide

/-- Claim C3 (amended): on that event list `checkEventsForBlocker` returns
none: the pattern-matching loop finds no match on the text (the funding
patterns require `need` followed directly by a funding word, which
`Need 2 SOL` does not satisfy), so the detector never reaches the
extractors. -/
theorem C3_funding_scenario_amended :
    (detectCore (filterText (s2l "Need 2 SOL to proceed, current balance 0.1 SOL"))).matched =
      [] ∧
    detectBlocker (s2l "Need 2 SOL to proceed, current balance 0.1 SOL") true = none ∧
    checkEventsForBlocker
      [⟨s2l "assistant_message", some (s2l "Need 2 SOL to proceed, current balance 0.1 SOL")⟩]
      2 = none :=
  ⟨by decide, by decide, by decide⟩

/-- Claim C4: any blocker reported by `checkEventsForBlocker` comes from an
assistant message that is not list-like, and the list-item example yields
no blocker. -/
theorem C4_list_item_suppression :
    (∀ (events : List SessionEvent) (n : Nat) (b : BlockerInfo),
      checkEventsForBlocker events n = some b →
      ∃ e, e ∈ events ∧ e.type = s2l "assistant_message" ∧ textTruthy e.text = true ∧
        isLikelyListItem (textOf e) = false ∧ detectBlocker (textOf e) true = some b) ∧
    checkEventsForBlocker
      [⟨s2l "assistant_message", some (s2l "- Tasks where funding was needed: none")⟩] 2 =
      none := by
  constructor
  · intro events n b h
    simp only [checkEventsForBlocker] at h
    split at h
    · exact absurd h (by simp)
    · obtain ⟨e, he, h1, h2, h3⟩ := scanForBlocker_spec _ b h
      have he' : e ∈ (events.filter assistantWithText) := mem_sliceNeg (List.mem_reverse.1 he)
      have hawt := List.of_mem_filter he'
      simp only [assistantWithText, Bool.and_eq_true, decide_eq_true_eq] at hawt
      exact ⟨e, List.mem_of_mem_filter he', hawt.1, h1, h2, h3⟩
  · decide

/-- Witness for C4: the blocker reported on a non-list funding message
comes from that message. -/
theorem C4_list_item_suppression_witness :
    ∃ e, e ∈ [(⟨s2l "assistant_message",
          some (s2l "Insufficient funds detected here.")⟩ : SessionEvent)] ∧
      e.type = s2l "assistant_message" ∧ textTruthy e.text = true ∧
      isLikelyListItem (textOf e) = false ∧
      detectBlocker (textOf e) true =
        some ⟨s2l "Insufficient funds - need additional SOL",
          s2l "Insufficient funds detected here.",
          [s2l "funding_needed:insufficient (sol|balance|funds)"], none⟩ :=
  C4_list_item_suppression.1 _ 2 _ (by decide)

/-- Claim C5: when the Bubble lookup succeeds, a live session with a
successful input write yields `handled_directly` (the text forwarded to
that session, no token forced, no reconstruction); a dead session yields
`route_to_dydo` with exactly the bubble's stored resume token forced and
named inside the orchestration request — independently of the original
message text. -/
theorem C5_router_dichotomy (chatId text : Str) (threadId : Option Nat)
    (originalMessageText : Option Str) (sessionId : Str) (bubble : Bubble)
    (sessionLive sendOk resolveOk : Bool) :
    (sessionLive = true → sendOk = true →
      handleBubbleReply chatId text threadId originalMessageText (some (sessionId, bubble))
          sessionLive sendOk resolveOk =
        ⟨.handled_directly, none, some (sessionId, text)⟩) ∧
    (sessionLive = false →
      ∃ pre post,
        handleBubbleReply chatId text threadId originalMessageText (some (sessionId, bubble))
            sessionLive sendOk resolveOk =
          ⟨.route_to_dydo (pre ++ bubble.resumeToken ++ post),
            some bubble.resumeToken, none⟩) := by
  constructor
  · intro h1 h2
    subst h1
    subst h2
    rfl
  · intro h1
    subst h1
    obtain ⟨pre, post, hd⟩ := buildResumeRequest_decomp
      ⟨.resume, bubble.projectName, some text, some bubble.resumeToken, none, false,
        some ⟨chatId, threadId, none, none⟩⟩ bubble.resumeToken rfl
    refine ⟨pre, post, ?_⟩
    have hstep : handleBubbleReply chatId text threadId originalMessageText
        (some (sessionId, bubble)) false sendOk resolveOk =
        ⟨.route_to_dydo (buildResumeRequest
            ⟨.resume, bubble.projectName, some text, some bubble.resumeToken, none, false,
              some ⟨chatId, threadId, none, none⟩⟩),
          some bubble.resumeToken, none⟩ := rfl
    rw [hstep, hd]

/-- Witness for C5: both router paths at a concrete bubble. -/
theorem C5_router_dichotomy_witness :
    (handleBubbleReply (s2l "42") (s2l "go on") none none
        (some (s2l "sid1", ⟨s2l "tok-1234", s2l "proj"⟩)) true true true =
      ⟨.handled_directly, none, some (s2l "sid1", s2l "go on")⟩) ∧
    ∃ pre post,
      handleBubbleReply (s2l "42") (s2l "go on") none none
          (some (s2l "sid1", ⟨s2l "tok-1234", s2l "proj"⟩)) false false true =
        ⟨.route_to_dydo (pre ++ s2l "tok-1234" ++ post), some (s2l "tok-1234"), none⟩ :=
  ⟨(C5_router_dichotomy (s2l "42") (s2l "go on") none none (s2l "sid1")
      ⟨s2l "tok-1234", s2l "proj"⟩ true true true).1 rfl rfl,
    (C5_router_dichotomy (s2l "42") (s2l "go on") none none (s2l "sid1")
      ⟨s2l "tok-1234", s2l "proj"⟩ false false true).2 rfl⟩

/-- Claim C6: when the judgment-oracle invocation throws, `assessBlocker`
fails open (`isRealBlocker=true`, `confidence=0.5`, fallback reasoning)
and `checkForRealtimeIntervention` fails closed (`intervened=false`);
neither propagates the exception. -/
theorem C6_oracle_failure :
    (∀ (blocker : BlockerInfo) (events : List SessionEvent) (status : Str) (e : Str),
      assessBlocker blocker events status (.error e) =
        ⟨true, 1 / 2, s2l "Assessment failed, defaulting to pattern matching result",
          none, none⟩) ∧
    (∀ (event : SessionEvent) (ctx : SessionContext) (e : Str),
      (checkForRealtimeIntervention event ctx (.error e)).intervened = false) ∧
    (∀ (event : SessionEvent) (ctx : SessionContext) (e : Str),
      event.type = s2l "assistant_message" → textTruthy event.text = true →
      (detectBlocker (textOf event) false).isSome = true →
      checkForRealtimeIntervention event ctx (.error e) =
        ⟨false, none, s2l "Intervention assessment failed, escalating to user"⟩) := by
  refine ⟨fun _ _ _ _ => rfl, ?_, ?_⟩
  · intro event ctx e
    unfold checkForRealtimeIntervention
    split
    · rfl
    · split
      · rfl
      · simp [askDyDoForIntervention]
  · intro event ctx e h1 h2 h3
    unfold checkForRealtimeIntervention
    rw [if_neg (by simp [h1, h2])]
    cases hdet : detectBlocker (textOf event) false with
    | none => rw [hdet] at h3; simp at h3
    | some sb => simp [askDyDoForIntervention]

/-- Witness for C6: a throwing oracle on a detected funding blocker. -/
theorem C6_oracle_failure_witness :
    checkForRealtimeIntervention
        ⟨s2l "assistant_message", some (s2l "Insufficient funds detected here.")⟩
        ⟨s2l "sid", s2l "proj", []⟩ (.error (s2l "network down")) =
      ⟨false, none, s2l "Intervention assessment failed, escalating to user"⟩ :=
  C6_oracle_failure.2.2
    ⟨s2l "assistant_message", some (s2l "Insufficient funds detected here.")⟩
    ⟨s2l "sid", s2l "proj", []⟩ (s2l "network down") rfl (by decide) (by decide)

/-- Claim C7: every BlockerInfo produced by `detectBlocker` is built from
the pre-filtered text only — its `lastMessage` is the filtered text, its
other fields are computed from it — and the filtered text contains no
table-like line. -/
theorem C7_signal_filter (text : Str) (sessionEnded : Bool) (b : BlockerInfo)
    (h : detectBlocker text sessionEnded = some b) :
    (b.lastMessage = filterText text ∧
      b.matchedPatterns = (detectCore (filterText text)).matched ∧
      b.reason = extractBlockerReason (filterText text) (detectCore (filterText text)).primary ∧
      b.extractedContext =
        (if (detectCore (filterText text)).ctx = [] then none
          else some (detectCore (filterText text)).ctx)) ∧
    ∀ line ∈ splitLines (filterText text),
      startsWithStr (s2l "|") (jsTrim line) = false ∧
      containsStr (s2l "|---") line = false := by
  have hline : ∀ line ∈ splitLines (filterText text),
      startsWithStr (s2l "|") (jsTrim line) = false ∧
      containsStr (s2l "|---") line = false := by
    intro line hl
    unfold filterText filterTables at hl
    cases hls : (splitLines (removeFences text)).filter
        (fun line => !startsWithStr (s2l "|") (jsTrim line) &&
          !containsStr (s2l "|---") line) with
    | nil =>
      rw [hls] at hl
      have : line = ([] : Str) := by simpa [joinNl, splitLines] using hl
      subst this
      exact ⟨by decide, by decide⟩
    | cons x xs =>
      rw [hls] at hl
      rw [splitLines_joinNl (x :: xs)
        (fun l hl' => no_nl_of_mem_splitLines _ l
          (List.mem_of_mem_filter (hls ▸ hl')))
        (by simp)] at hl
      have hp := List.of_mem_filter (hls ▸ hl)
      simp only [Bool.and_eq_true, Bool.not_eq_true'] at hp
      exact ⟨hp.1, hp.2⟩
  refine ⟨?_, hline⟩
  simp only [detectBlocker] at h
  split at h
  · exact absurd h (by simp)
  · split at h
    · exact absurd h (by simp)
    · split at h
      · have hb := (Option.some.inj h).symm
        subst hb
        exact ⟨rfl, rfl, rfl, rfl⟩
      · exact absurd h (by simp)

/-- Witness for C7: the BlockerInfo produced on a text with a table line is
built from the filtered text. -/
theorem C7_signal_filter_witness :
    (⟨s2l "Need more SOL now, please fund the wallet",
        s2l "Need more SOL now, please fund the wallet.",
        [s2l "waiting_for_user:please (complete|finish|do|run|execute|claim|fund)",
          s2l "funding_needed:need(s|ed)? (more )?(sol|funds|funding|balance)"],
        none⟩ : BlockerInfo).lastMessage =
      filterText (s2l "|---|\nNeed more SOL now, please fund the wallet.") ∧
    (⟨s2l "Need more SOL now, please fund the wallet",
        s2l "Need more SOL now, please fund the wallet.",
        [s2l "waiting_for_user:please (complete|finish|do|run|execute|claim|fund)",
          s2l "funding_needed:need(s|ed)? (more )?(sol|funds|funding|balance)"],
        none⟩ : BlockerInfo).matchedPatterns =
      (detectCore (filterText (s2l "|---|\nNeed more SOL now, please fund the wallet."))).matched :=
  ⟨((C7_signal_filter (s2l "|---|\nNeed more SOL now, please fund the wallet.") false _
      (by decide)).1).1,
    ((C7_signal_filter (s2l "|---|\nNeed more SOL now, please fund the wallet.") false _
      (by decide)).1).2.1⟩

/-- Claim C8: the fallback parser extracts the resume token from the
`claude --resume <UUID>` hint and the project name from the `ctx:` line. -/
theorem C8_fallback_extraction :
    parseResumeTokenFromMessage
        (some (s2l "claude --resume 123e4567-e89b-12d3-a456-426614174000\nctx: my-project @main")) =
      some (s2l "123e4567-e89b-12d3-a456-426614174000", s2l "my-project @main") := by
  decide

/-- Claim C9: an extracted reason never exceeds 150 characters, and a
clamped sentence is cut to 147 characters plus the three-character
ellipsis (total exactly 150). -/
theorem C9_reason_bound :
    (∀ (text : Str) (category : Option Str),
      (extractBlockerReason text category).length ≤ 150) ∧
    (∀ t : Str, 150 < t.length →
      clampReason t = t.take 147 ++ s2l "..." ∧ (clampReason t).length = 150) := by
  constructor
  · intro text category
    unfold extractBlockerReason
    split
    · exact clampReason_length_le _
    · unfold cannedReason
      split_ifs <;> decide
  · intro t ht
    have h1 : clampReason t = t.take 147 ++ s2l "..." := by
      unfold clampReason
      rw [if_neg (by omega)]
    refine ⟨h1, ?_⟩
    rw [h1]
    simp only [List.length_append, List.length_take]
    have : (s2l "...").length = 3 := by decide
    omega

/-- Witness for C9: a 151-character sentence is clamped to 147 characters
plus the ellipsis. -/
theorem C9_reason_bound_witness :
    clampReason (List.replicate 151 'a') = (List.replicate 151 'a').take 147 ++ s2l "..." ∧
    (clampReason (List.replicate 151 'a')).length = 150 :=
  C9_reason_bound.2 (List.replicate 151 'a') (by simp)

/-- Claim C10: a message containing a `claude --resume <token>` hint but
neither a `ctx:` marker nor a `**working**`/`**done**` header still parses,
with project name `unknown`, and the router never classifies such a reply
as `not_bubble_reply`. -/
theorem C10_token_without_hint :
    (∀ (msg tok : Str), msg ≠ [] →
      group1 resumeTokenRE msg = some tok →
      group1 ctxRE msg = none →
      group1 headerRE msg = none →
      parseResumeTokenFromMessage (some msg) = some (tok, s2l "unknown")) ∧
    (∀ (chatId text : Str) (threadId : Option Nat) (orig : Option Str)
        (sessionLive sendOk resolveOk : Bool) (fb : Str × Str),
      parseResumeTokenFromMessage orig = some fb →
      (handleBubbleReply chatId text threadId orig none sessionLive sendOk resolveOk).result ≠
        .not_bubble_reply) := by
  constructor
  · intro msg tok hne hres hctx hhdr
    cases msg with
    | nil => exact absurd rfl hne
    | cons c cs => simp [parseResumeTokenFromMessage, hres, hctx, hhdr]
  · intro chatId text threadId orig sl so ro fb hparse
    obtain ⟨tok, pn⟩ := fb
    simp only [handleBubbleReply, hparse]
    split
    · simp
    · simp

/-- Witness for C10: a bare resume hint parses with project `unknown` and
is routed as a session reply. -/
theorem C10_token_without_hint_witness :
    parseResumeTokenFromMessage
        (some (s2l "claude --resume 123e4567-e89b-12d3-a456-426614174000")) =
      some (s2l "123e4567-e89b-12d3-a456-426614174000", s2l "unknown") ∧
    (handleBubbleReply (s2l "1") (s2l "hi") none
        (some (s2l "claude --resume 123e4567-e89b-12d3-a456-426614174000")) none false false
        true).result ≠ .not_bubble_reply :=
  ⟨C10_token_without_hint.1 _ _ (by decide) (by decide) (by decide) (by decide),
    C10_token_without_hint.2 (s2l "1") (s2l "hi") none _ false false true
      (s2l "123e4567-e89b-12d3-a456-426614174000", s2l "unknown") (by decide)⟩

end Clawdbot
